import Mathlib

/-!
Verification of the Spoofr identity-spoofing engine (src/Spoofr.py).

The engine is embedded shallowly: every external effect (subprocess calls,
file reads, log appends) is represented by an outcome recorded in a `Driver`
or `Env` oracle, and each operation returns its successor state together with
a trace of the driver events it performed.  Randomness (candidate choice,
fresh MAC bytes) is threaded in as explicit parameters.  Locking is elided:
the embedding gives the sequential state-transition semantics of each
operation.
-/

namespace Spoofr

/-- An identity record as built by the engine: a python dict
with keys "type" ("wifi", "bluetooth", or an arbitrary lower-cased
detector-supplied string) and "name".  Dict equality is field-wise. -/
structure Spoof where
  type : String
  name : String
deriving DecidableEq, Repr

/-- The configuration options the engine logic reads
(`spoof_targets`, `randomize_mac`, `log_file`, `check_interval`).
Options the logic never branches on (interface names, UI position,
gpsd host/port, `spoof_duration`) are omitted. -/
structure Config where
  spoof_targets : List String
  randomize_mac : Bool
  log_file : String
  check_interval : Int
deriving DecidableEq, Repr

/-- Outcomes of the side-effecting commands the plugin issues.  Each field
records whether the corresponding subprocess / file operation succeeds.
`ssid_write_ok` collapses the hostapd.conf read, rewrite and `mv` of
`_spoof_wifi`; `if_down_ok`, `mac_set_ok`, `if_up_ok` are the three
`ifconfig` calls of a MAC cycle; `restart_ok` is `systemctl restart
hostapd`; `bt_set_ok` is the `hciconfig ... name` call; `log_append_ok`
is the append to the JSON log file. -/
structure Driver where
  ssid_write_ok : Bool
  if_down_ok : Bool
  mac_set_ok : Bool
  if_up_ok : Bool
  restart_ok : Bool
  bt_set_ok : Bool
  log_append_ok : Bool
deriving DecidableEq, Repr

/-- Read-side environment for original-state capture during `on_loaded`:
`none` means the underlying read command raised. -/
structure Env where
  hostapd_conf : Option (List String)
  bt_name_out : Option String
  ifconfig_out : Option (List String)
deriving DecidableEq, Repr

/-- A gpsd packet as consumed by `_get_gps_data`.  The float readings are
abstracted to `Int`; the engine never computes on them. -/
structure GpsPacket where
  mode : Nat
  lat : Int
  lon : Int
  alt : Int
  time : String
  satellites_used : Nat
deriving DecidableEq, Repr

/-- The GPS dict `_get_gps_data` builds for a log entry. -/
structure GpsData where
  latitude : Int
  longitude : Int
  altitude : Int
  time : String
  satellites : Nat
deriving DecidableEq, Repr

/-- Observable driver / log events, in the order the plugin performs them. -/
inductive Event where
  | write_ssid (ssid : String)
  | if_down
  | set_mac (mac : String)
  | if_up
  | restart_hostapd
  | set_bt_name (name : String)
  | log_entry (spoof : Option Spoof) (gps : Option GpsData)
  | diag_error (src : String)
deriving DecidableEq, Repr

/-- The engine's mutable state (`__init__` fields `_current_spoof`,
`_last_spoof`, `_original_ssid`, `_original_bt_name`, `_original_mac`). -/
structure EngineState where
  current_spoof : Option Spoof
  last_spoof : Int
  original_ssid : Option String
  original_bt_name : Option String
  original_mac : Option String
deriving DecidableEq, Repr

/-- Python truthiness of an optional string: `None` and `""` are falsy. -/
def py_truthy : Option String → Bool
  | none => false
  | some s => s != ""

/-- `_get_current_ssid`: first `ssid=`-line of hostapd.conf, split at `=`;
on read failure or no match, the fallback string "pwnagotchi". -/
def get_current_ssid (env : Env) : String :=
  match env.hostapd_conf with
  | none => "pwnagotchi"
  | some lines =>
    match lines.find? (fun l => l.startsWith "ssid=") with
    | some l => (l.trim.splitOn "=").getD 1 ""
    | none => "pwnagotchi"

/-- `_get_current_bt_name`: parse `hciconfig ... name` output at ": ";
any failure (command or index error) yields "pwnagotchi". -/
def get_current_bt_name (env : Env) : String :=
  match env.bt_name_out with
  | none => "pwnagotchi"
  | some out =>
    let parts := out.trim.splitOn ": "
    if 2 ≤ parts.length then parts.getD 1 "" else "pwnagotchi"

/-- `_get_current_mac`: first token after "ether" in `ifconfig` output;
any failure yields `None`. -/
def get_current_mac (env : Env) : Option String :=
  match env.ifconfig_out with
  | none => none
  | some lines =>
    match lines.find? (fun l => decide (2 ≤ (l.splitOn "ether").length)) with
    | none => none
    | some l =>
      let after := ((l.trim.splitOn "ether").getD 1 "").trim
      match after.splitOn " " with
      | [] => none
      | w :: _ => if w = "" then none else some w

/-- The state `on_loaded` leaves behind: original-identity capture through
the read accessors, no spoof active, `_last_spoof = 0`. -/
def init_state (env : Env) : EngineState :=
  { current_spoof := none
  , last_spoof := 0
  , original_ssid := some (get_current_ssid env)
  , original_bt_name := some (get_current_bt_name env)
  , original_mac := get_current_mac env }

/-- `_get_gps_data`: `None` when GPS is unavailable or the fetch raised;
otherwise the packet is accepted only with a 2D-or-better fix, and the
altitude is kept only for a 3D fix. -/
def get_gps_data (gps_available : Bool) (packet : Option GpsPacket) : Option GpsData :=
  if !gps_available then none
  else
    match packet with
    | none => none
    | some p =>
      if 2 ≤ p.mode then
        some { latitude := p.lat, longitude := p.lon
             , altitude := if p.mode = 3 then p.alt else 0
             , time := p.time, satellites := p.satellites_used }
      else none

/-- `_spoof_wifi ssid`: rewrite hostapd.conf, optionally cycle the MAC to a
fresh random one (`new_mac`), restart hostapd.  The whole body is one
`try`: the first failing step aborts with `False` (logging the error),
keeping the effects already performed. -/
def spoof_wifi (cfg : Config) (d : Driver) (ssid : String) (new_mac : String) :
    Bool × List Event :=
  if !d.ssid_write_ok then (false, [.diag_error "spoof_wifi"])
  else if cfg.randomize_mac then
    if !d.if_down_ok then
      (false, [.write_ssid ssid, .diag_error "spoof_wifi"])
    else if !d.mac_set_ok then
      (false, [.write_ssid ssid, .if_down, .diag_error "spoof_wifi"])
    else if !d.if_up_ok then
      (false, [.write_ssid ssid, .if_down, .set_mac new_mac, .diag_error "spoof_wifi"])
    else if !d.restart_ok then
      (false, [.write_ssid ssid, .if_down, .set_mac new_mac, .if_up, .diag_error "spoof_wifi"])
    else
      (true, [.write_ssid ssid, .if_down, .set_mac new_mac, .if_up, .restart_hostapd])
  else
    if !d.restart_ok then (false, [.write_ssid ssid, .diag_error "spoof_wifi"])
    else (true, [.write_ssid ssid, .restart_hostapd])

/-- `_spoof_bluetooth name`: one `hciconfig ... name` call; `False` and a
diagnostic log on failure. -/
def spoof_bluetooth (d : Driver) (name : String) : Bool × List Event :=
  if d.bt_set_ok then (true, [.set_bt_name name])
  else (false, [.diag_error "spoof_bluetooth"])

/-- The apply dispatch shared by `on_wifi_update` and `on_webhook`:
"wifi" records go to `_spoof_wifi`, every other type string to
`_spoof_bluetooth`. -/
def apply_record (cfg : Config) (d : Driver) (c : Spoof) (mac : String) :
    Bool × List Event :=
  if c.type = "wifi" then spoof_wifi cfg d c.name mac else spoof_bluetooth d c.name

/-- Whether `_revert_spoof` takes its exception path: a wifi spoof with a
truthy captured SSID, MAC randomization on, a truthy captured MAC, and one
of the three `ifconfig` restore commands failing (those run with
`check=True`, so a failure raises out of the restore sequence). -/
def revert_raises (cfg : Config) (st : EngineState) (d : Driver) : Bool :=
  match st.current_spoof with
  | none => false
  | some sp =>
    (sp.type == "wifi") && py_truthy st.original_ssid &&
      cfg.randomize_mac && py_truthy st.original_mac &&
      !(d.if_down_ok && d.mac_set_ok && d.if_up_ok)

/-- `_revert_spoof`: when a spoof is active, restore the original identity
for its type.  The wifi branch replays `_spoof_wifi` with the original SSID
(its Boolean result is ignored) and then, if MAC randomization is on and an
original MAC was captured, reissues the down / set / up sequence with
`check=True` — if one of those raises, the `except` clause logs and the
assignment `_current_spoof = None` is skipped, leaving the record in place.
On every non-raising path the record is cleared, even when the type string
matches no known branch or the name restore reported failure. -/
def revert_spoof (cfg : Config) (st : EngineState) (d : Driver) (new_mac : String) :
    EngineState × List Event :=
  match st.current_spoof with
  | none => (st, [])
  | some sp =>
    if sp.type = "wifi" ∧ py_truthy st.original_ssid then
      let tr1 := (spoof_wifi cfg d (st.original_ssid.getD "") new_mac).2
      if cfg.randomize_mac ∧ py_truthy st.original_mac then
        if !d.if_down_ok then (st, tr1 ++ [.diag_error "revert"])
        else if !d.mac_set_ok then (st, tr1 ++ [.if_down, .diag_error "revert"])
        else if !d.if_up_ok then
          (st, tr1 ++ [.if_down, .set_mac (st.original_mac.getD ""), .diag_error "revert"])
        else
          ({ st with current_spoof := none },
           tr1 ++ [.if_down, .set_mac (st.original_mac.getD ""), .if_up])
      else ({ st with current_spoof := none }, tr1)
    else if sp.type = "bluetooth" ∧ py_truthy st.original_bt_name then
      ({ st with current_spoof := none },
       (spoof_bluetooth d (st.original_bt_name.getD "")).2)
    else ({ st with current_spoof := none }, [])

/-- `_log_spoof`: no-op when the log file option is empty (logging was
disabled at load); otherwise one appended JSON line carrying the current
spoof and the best-effort GPS fix, or a diagnostic error if the append
fails. -/
def log_spoof (cfg : Config) (st : EngineState) (d : Driver) (gps : Option GpsData) :
    List Event :=
  if cfg.log_file = "" then []
  else if d.log_append_ok then [.log_entry st.current_spoof gps]
  else [.diag_error "log"]

/-- The candidate list `on_wifi_update` builds from the PwnDetector
snapshot: wifi records for detected pwnagotchi names when "pwnagotchi" is a
spoof target, then lower-cased type / name records for detected flippers
when "flipper" is a spoof target. -/
def build_candidates (cfg : Config) (pwns : List String)
    (flips : List (String × String)) : List Spoof :=
  (if "pwnagotchi" ∈ cfg.spoof_targets
     then pwns.map (fun n => { type := "wifi", name := n }) else [])
  ++ (if "flipper" ∈ cfg.spoof_targets
     then flips.map (fun f => { type := f.1.toLower, name := f.2 }) else [])

/-- `random.choice(candidates)`: the RNG draw abstracted as an index taken
modulo the list length (the list is non-empty where this is used). -/
def choose_candidate (l : List Spoof) (pick : Nat) : Spoof :=
  l.getD (pick % l.length) { type := "", name := "" }

/-- `on_wifi_update` (the poll): drop the call unchanged if the check
interval has not elapsed; otherwise stamp `_last_spoof`, revert when the
detector is missing or the candidate list is empty, and otherwise pick the
`random.choice` candidate (index `pick` modulo the list length).  A
candidate equal to the current spoof does nothing; a different one is
preceded by a revert, applied, and only on apply success recorded as
current and written to the transition log. -/
def on_wifi_update (cfg : Config) (st : EngineState) (d : Driver) (now : Int)
    (detector_loaded : Bool) (pwns : List String) (flips : List (String × String))
    (pick : Nat) (mac1 mac2 : String) (gps : Option GpsData) :
    EngineState × List Event :=
  if now - st.last_spoof < cfg.check_interval then (st, [])
  else
    let st := { st with last_spoof := now }
    if !detector_loaded then
      let r1 := revert_spoof cfg st d mac1
      (r1.1, .diag_error "detector" :: r1.2)
    else
      let candidates := build_candidates cfg pwns flips
      if candidates.isEmpty then revert_spoof cfg st d mac1
      else
        let new_spoof := choose_candidate candidates pick
        if some new_spoof ≠ st.current_spoof then
          let r1 := revert_spoof cfg st d mac1
          let r2 := apply_record cfg d new_spoof mac2
          if r2.1 then
            let st2 := { r1.1 with current_spoof := some new_spoof }
            (st2, r1.2 ++ r2.2 ++ log_spoof cfg st2 d gps)
          else (r1.1, r1.2 ++ r2.2)
        else (st, [])

/-- A POST body for the control endpoint: either `json.loads` raised, or a
parsed dict with its optional "action", "type" and "name" fields. -/
inductive Payload where
  | malformed (msg : String)
  | parsed (action : Option String) (type : Option String) (name : Option String)
deriving DecidableEq, Repr

/-- The structured endpoint response. -/
inductive Resp where
  | success
  | error (msg : String)
deriving DecidableEq, Repr

/-- The POST half of `on_webhook` on path "/spoofr": an unparseable body is
caught, logged and answered with a structured error; a parsed dict runs the
"revert" or fully-formed "spoof" action (revert, apply, record and log on
success) and always falls through to the success response — including when
"action" is absent, unrecognized, or "spoof" with "type" or "name"
missing. -/
def on_webhook_post (cfg : Config) (st : EngineState) (d : Driver) (p : Payload)
    (mac1 mac2 : String) (gps : Option GpsData) :
    EngineState × List Event × Resp :=
  match p with
  | .malformed msg => (st, [.diag_error "webhook"], .error msg)
  | .parsed action ty nm =>
    if action = some "revert" then
      let r1 := revert_spoof cfg st d mac1
      (r1.1, r1.2, .success)
    else if action = some "spoof" then
      match ty, nm with
      | some t, some n =>
        let r1 := revert_spoof cfg st d mac1
        let r2 := apply_record cfg d { type := t, name := n } mac2
        if r2.1 then
          let st2 := { r1.1 with current_spoof := some { type := t, name := n } }
          (st2, r1.2 ++ r2.2 ++ log_spoof cfg st2 d gps, .success)
        else (r1.1, r1.2 ++ r2.2, .success)
      | _, _ => (st, [], .success)
    else (st, [], .success)

/-- Identity mutations: the events that change an advertised name
(the SSID rewrite and the Bluetooth rename). -/
def is_name_mutation : Event → Bool
  | .write_ssid _ => true
  | .set_bt_name _ => true
  | _ => false

/-- Number of identity mutations in a trace. -/
def name_mutations (tr : List Event) : Nat := tr.countP is_name_mutation

theorem revert_spoof_of_none (cfg : Config) (st : EngineState) (d : Driver) (m : String)
    (h : st.current_spoof = none) : revert_spoof cfg st d m = (st, []) := by
  unfold revert_spoof
  rw [h]

theorem revert_spoof_fst (cfg : Config) (st : EngineState) (d : Driver) (m : String) :
    (revert_spoof cfg st d m).1 =
      if revert_raises cfg st d = true then st else { st with current_spoof := none } := by
  unfold revert_spoof revert_raises
  cases hc : st.current_spoof with
  | none =>
    cases st
    simp_all
  | some sp =>
    by_cases ht : sp.type = "wifi" <;>
      cases hs : py_truthy st.original_ssid <;>
      cases hrm : cfg.randomize_mac <;>
      cases hom : py_truthy st.original_mac <;>
      cases hd : d.if_down_ok <;>
      cases hms : d.mac_set_ok <;>
      cases hu : d.if_up_ok <;>
      simp_all [apply_ite]

theorem revert_spoof_raises_diag (cfg : Config) (st : EngineState) (d : Driver) (m : String)
    (h : revert_raises cfg st d = true) :
    Event.diag_error "revert" ∈ (revert_spoof cfg st d m).2 := by
  unfold revert_raises at h
  unfold revert_spoof
  cases hc : st.current_spoof with
  | none => rw [hc] at h; cases h
  | some sp =>
    rw [hc] at h
    by_cases ht : sp.type = "wifi" <;>
      cases hs : py_truthy st.original_ssid <;>
      cases hrm : cfg.randomize_mac <;>
      cases hom : py_truthy st.original_mac <;>
      cases hd : d.if_down_ok <;>
      cases hms : d.mac_set_ok <;>
      cases hu : d.if_up_ok <;>
      simp_all

theorem spoof_wifi_no_log (cfg : Config) (d : Driver) (ssid m : String)
    (sp : Option Spoof) (g : Option GpsData) :
    Event.log_entry sp g ∉ (spoof_wifi cfg d ssid m).2 := by
  unfold spoof_wifi
  cases hw : d.ssid_write_ok <;> cases hrm : cfg.randomize_mac <;>
    cases hd : d.if_down_ok <;> cases hms : d.mac_set_ok <;>
    cases hu : d.if_up_ok <;> cases hr : d.restart_ok <;> simp_all

theorem spoof_bluetooth_no_log (d : Driver) (n : String)
    (sp : Option Spoof) (g : Option GpsData) :
    Event.log_entry sp g ∉ (spoof_bluetooth d n).2 := by
  unfold spoof_bluetooth
  cases hbt : d.bt_set_ok <;> simp_all

theorem revert_spoof_no_log (cfg : Config) (st : EngineState) (d : Driver) (m : String)
    (sp : Option Spoof) (g : Option GpsData) :
    Event.log_entry sp g ∉ (revert_spoof cfg st d m).2 := by
  cases hc : st.current_spoof with
  | none => simp [revert_spoof, hc]
  | some s =>
    have h1 := spoof_wifi_no_log cfg d (st.original_ssid.getD "") m sp g
    have h2 := spoof_bluetooth_no_log d (st.original_bt_name.getD "") sp g
    simp only [revert_spoof, hc]
    by_cases c1 : s.type = "wifi" ∧ py_truthy st.original_ssid = true
    · rw [if_pos c1]
      by_cases c2 : cfg.randomize_mac = true ∧ py_truthy st.original_mac = true
      · rw [if_pos c2]
        cases hd : d.if_down_ok <;> cases hms : d.mac_set_ok <;>
          cases hu : d.if_up_ok <;> simp_all
      · rw [if_neg c2]; simp_all
    · rw [if_neg c1]
      by_cases c3 : s.type = "bluetooth" ∧ py_truthy st.original_bt_name = true
      · rw [if_pos c3]; simp_all
      · rw [if_neg c3]; simp

theorem spoof_wifi_fails_diag (cfg : Config) (d : Driver) (ssid m : String)
    (h : (spoof_wifi cfg d ssid m).1 = false) :
    Event.diag_error "spoof_wifi" ∈ (spoof_wifi cfg d ssid m).2 := by
  unfold spoof_wifi at *
  cases hw : d.ssid_write_ok <;> cases hrm : cfg.randomize_mac <;>
    cases hd : d.if_down_ok <;> cases hms : d.mac_set_ok <;>
    cases hu : d.if_up_ok <;> cases hr : d.restart_ok <;> simp_all

theorem spoof_bluetooth_fails_diag (d : Driver) (n : String)
    (h : (spoof_bluetooth d n).1 = false) :
    Event.diag_error "spoof_bluetooth" ∈ (spoof_bluetooth d n).2 := by
  unfold spoof_bluetooth at *
  cases hbt : d.bt_set_ok <;> simp_all

theorem apply_record_no_log (cfg : Config) (d : Driver) (c : Spoof) (m : String)
    (sp : Option Spoof) (g : Option GpsData) :
    Event.log_entry sp g ∉ (apply_record cfg d c m).2 := by
  unfold apply_record
  by_cases hcw : c.type = "wifi"
  · rw [if_pos hcw]; exact spoof_wifi_no_log cfg d c.name m sp g
  · rw [if_neg hcw]; exact spoof_bluetooth_no_log d c.name sp g

theorem apply_record_fails_diag (cfg : Config) (d : Driver) (c : Spoof) (m : String)
    (h : (apply_record cfg d c m).1 = false) :
    Event.diag_error "spoof_wifi" ∈ (apply_record cfg d c m).2 ∨
      Event.diag_error "spoof_bluetooth" ∈ (apply_record cfg d c m).2 := by
  unfold apply_record at *
  by_cases hcw : c.type = "wifi"
  · rw [if_pos hcw] at h ⊢
    exact Or.inl (spoof_wifi_fails_diag cfg d c.name m h)
  · rw [if_neg hcw] at h ⊢
    exact Or.inr (spoof_bluetooth_fails_diag d c.name h)

theorem spoof_wifi_ok_name_mutations (cfg : Config) (d : Driver) (ssid m : String)
    (h : (spoof_wifi cfg d ssid m).1 = true) :
    name_mutations (spoof_wifi cfg d ssid m).2 = 1 := by
  unfold spoof_wifi at *
  cases hw : d.ssid_write_ok <;> cases hrm : cfg.randomize_mac <;>
    cases hd : d.if_down_ok <;> cases hms : d.mac_set_ok <;>
    cases hu : d.if_up_ok <;> cases hr : d.restart_ok <;>
    simp_all [name_mutations, List.countP_cons, List.countP_nil, is_name_mutation]

theorem spoof_bluetooth_ok_name_mutations (d : Driver) (n : String)
    (h : (spoof_bluetooth d n).1 = true) :
    name_mutations (spoof_bluetooth d n).2 = 1 := by
  unfold spoof_bluetooth at *
  cases hbt : d.bt_set_ok <;>
    simp_all [name_mutations, List.countP_cons, List.countP_nil, is_name_mutation]

theorem apply_record_ok_name_mutations (cfg : Config) (d : Driver) (c : Spoof) (m : String)
    (h : (apply_record cfg d c m).1 = true) :
    name_mutations (apply_record cfg d c m).2 = 1 := by
  unfold apply_record at *
  by_cases hcw : c.type = "wifi"
  · rw [if_pos hcw] at h ⊢
    exact spoof_wifi_ok_name_mutations cfg d c.name m h
  · rw [if_neg hcw] at h ⊢
    exact spoof_bluetooth_ok_name_mutations d c.name h

theorem log_spoof_name_mutations (cfg : Config) (st : EngineState) (d : Driver)
    (g : Option GpsData) : name_mutations (log_spoof cfg st d g) = 0 := by
  unfold log_spoof
  split_ifs <;>
    simp_all [name_mutations, List.countP_cons, List.countP_nil, is_name_mutation]

theorem on_wifi_update_rate_limited (cfg : Config) (st : EngineState) (d : Driver)
    (now : Int) (dl : Bool) (pwns : List String) (flips : List (String × String))
    (pick : Nat) (m1 m2 : String) (g : Option GpsData)
    (h : now - st.last_spoof < cfg.check_interval) :
    on_wifi_update cfg st d now dl pwns flips pick m1 m2 g = (st, []) := by
  unfold on_wifi_update
  rw [if_pos h]

theorem on_wifi_update_empty (cfg : Config) (st : EngineState) (d : Driver) (now : Int)
    (pwns : List String) (flips : List (String × String)) (pick : Nat) (m1 m2 : String)
    (g : Option GpsData)
    (ht : ¬ now - st.last_spoof < cfg.check_interval)
    (hc : build_candidates cfg pwns flips = []) :
    on_wifi_update cfg st d now true pwns flips pick m1 m2 g =
      revert_spoof cfg { st with last_spoof := now } d m1 := by
  unfold on_wifi_update
  rw [if_neg ht]
  simp [hc]

theorem on_wifi_update_changed_fail (cfg : Config) (st : EngineState) (d : Driver)
    (now : Int) (pwns : List String) (flips : List (String × String)) (pick : Nat)
    (m1 m2 : String) (g : Option GpsData) (c : Spoof)
    (ht : ¬ now - st.last_spoof < cfg.check_interval)
    (hne : build_candidates cfg pwns flips ≠ [])
    (hpick : choose_candidate (build_candidates cfg pwns flips) pick = c)
    (hdiff : some c ≠ st.current_spoof)
    (hfail : (apply_record cfg d c m2).1 = false) :
    on_wifi_update cfg st d now true pwns flips pick m1 m2 g =
      ((revert_spoof cfg { st with last_spoof := now } d m1).1,
       (revert_spoof cfg { st with last_spoof := now } d m1).2 ++ (apply_record cfg d c m2).2) := by
  have hie : (build_candidates cfg pwns flips).isEmpty = false := by
    cases hbc : build_candidates cfg pwns flips with
    | nil => exact absurd hbc hne
    | cons a l => rfl
  unfold on_wifi_update
  rw [if_neg ht]
  simp [hie, hpick, hdiff, hfail]

theorem on_wifi_update_changed_ok (cfg : Config) (st : EngineState) (d : Driver)
    (now : Int) (pwns : List String) (flips : List (String × String)) (pick : Nat)
    (m1 m2 : String) (g : Option GpsData) (c : Spoof)
    (ht : ¬ now - st.last_spoof < cfg.check_interval)
    (hne : build_candidates cfg pwns flips ≠ [])
    (hpick : choose_candidate (build_candidates cfg pwns flips) pick = c)
    (hdiff : some c ≠ st.current_spoof)
    (hok : (apply_record cfg d c m2).1 = true) :
    on_wifi_update cfg st d now true pwns flips pick m1 m2 g =
      ({ (revert_spoof cfg { st with last_spoof := now } d m1).1 with current_spoof := some c },
       (revert_spoof cfg { st with last_spoof := now } d m1).2 ++ (apply_record cfg d c m2).2 ++
         log_spoof cfg
           { (revert_spoof cfg { st with last_spoof := now } d m1).1 with
              current_spoof := some c } d g) := by
  have hie : (build_candidates cfg pwns flips).isEmpty = false := by
    cases hbc : build_candidates cfg pwns flips with
    | nil => exact absurd hbc hne
    | cons a l => rfl
  unfold on_wifi_update
  rw [if_neg ht]
  simp [hie, hpick, hdiff, hok]

theorem on_wifi_update_unchanged (cfg : Config) (st : EngineState) (d : Driver)
    (now : Int) (pwns : List String) (flips : List (String × String)) (pick : Nat)
    (m1 m2 : String) (g : Option GpsData) (c : Spoof)
    (ht : ¬ now - st.last_spoof < cfg.check_interval)
    (hne : build_candidates cfg pwns flips ≠ [])
    (hpick : choose_candidate (build_candidates cfg pwns flips) pick = c)
    (heq : some c = st.current_spoof) :
    on_wifi_update cfg st d now true pwns flips pick m1 m2 g =
      ({ st with last_spoof := now }, []) := by
  have hie : (build_candidates cfg pwns flips).isEmpty = false := by
    cases hbc : build_candidates cfg pwns flips with
    | nil => exact absurd hbc hne
    | cons a l => rfl
  unfold on_wifi_update
  rw [if_neg ht]
  simp [hie, hpick, ← heq]

/-! Concrete fixtures used by witnesses and counterexamples. -/

/-- A driver on which every command succeeds. -/
def ok_driver : Driver :=
  { ssid_write_ok := true, if_down_ok := true, mac_set_ok := true, if_up_ok := true
  , restart_ok := true, bt_set_ok := true, log_append_ok := true }

/-- A driver whose `ifconfig ... down` command fails while everything else
succeeds: the MAC cycle is the only failing sub-step. -/
def down_fails_driver : Driver :=
  { ssid_write_ok := true, if_down_ok := false, mac_set_ok := true, if_up_ok := true
  , restart_ok := true, bt_set_ok := true, log_append_ok := true }

/-- The plugin's default configuration, restricted to the modelled options. -/
def default_config : Config :=
  { spoof_targets := ["pwnagotchi", "flipper"], randomize_mac := true
  , log_file := "/var/log/spoofr.json", check_interval := 60 }

/-- A state holding a wifi spoof, with every original-identity field
captured. -/
def wifi_active_state : EngineState :=
  { current_spoof := some { type := "wifi", name := "unitA" }, last_spoof := 0
  , original_ssid := some "orig_ssid", original_bt_name := some "orig_bt"
  , original_mac := some "aa:bb:cc:dd:ee:ff" }

/-- A state with no spoof active and every original-identity field
captured. -/
def inactive_state : EngineState :=
  { current_spoof := none, last_spoof := 0
  , original_ssid := some "orig_ssid", original_bt_name := some "orig_bt"
  , original_mac := some "aa:bb:cc:dd:ee:ff" }

/-! Claim C1. -/

/-- C1 counterexample: with an active wifi spoof, MAC randomization on and a
captured original MAC, a failing `ifconfig ... down` restore command raises
out of `_revert_spoof`; the handler logs the error, but the assignment
clearing `_current_spoof` is skipped, so revert returns with the stale
active record still in place — contradicting the claim that a driver
failure during revert still sets `active = None`. -/
theorem c1_counterexample :
    (revert_spoof default_config wifi_active_state down_fails_driver
        "00:11:22:33:44:55").1.current_spoof = some { type := "wifi", name := "unitA" } ∧
    Event.diag_error "revert" ∈
      (revert_spoof default_config wifi_active_state down_fails_driver
        "00:11:22:33:44:55").2 := by
  decide

/-- C1 amended: reverting an active record clears `active` on every
non-raising path (including name-restore commands that merely report
failure), and `active = None` afterwards holds exactly when the raising
MAC-restore path is not taken; on that raising path the error is logged to
the diagnostic channel and the stale record survives. -/
theorem c1_amended_revert_clears_iff_no_raise (cfg : Config) (st : EngineState)
    (d : Driver) (m : String) (r : Spoof) (h : st.current_spoof = some r) :
    ((revert_spoof cfg st d m).1.current_spoof = none ↔
      revert_raises cfg st d = false) ∧
    (revert_raises cfg st d = true →
      (revert_spoof cfg st d m).1.current_spoof = some r ∧
      Event.diag_error "revert" ∈ (revert_spoof cfg st d m).2) := by
  have hf := revert_spoof_fst cfg st d m
  constructor
  · constructor
    · intro hn
      cases hx : revert_raises cfg st d with
      | false => rfl
      | true =>
        rw [hf, if_pos hx, h] at hn
        cases hn
    · intro hx
      rw [hf, if_neg (by rw [hx]; exact Bool.false_ne_true)]
  · intro hx
    refine ⟨?_, revert_spoof_raises_diag cfg st d m hx⟩
    rw [hf, if_pos hx]
    exact h

/-- Witness for C1 amended, at a concrete active state and an all-successful
driver. -/
theorem c1_amended_witness :
    wifi_active_state.current_spoof = some { type := "wifi", name := "unitA" } ∧
    (((revert_spoof default_config wifi_active_state ok_driver
          "00:11:22:33:44:55").1.current_spoof = none ↔
        revert_raises default_config wifi_active_state ok_driver = false) ∧
      (revert_raises default_config wifi_active_state ok_driver = true →
        (revert_spoof default_config wifi_active_state ok_driver
          "00:11:22:33:44:55").1.current_spoof = some { type := "wifi", name := "unitA" } ∧
        Event.diag_error "revert" ∈
          (revert_spoof default_config wifi_active_state ok_driver
            "00:11:22:33:44:55").2)) :=
  ⟨rfl, c1_amended_revert_clears_iff_no_raise default_config wifi_active_state ok_driver
    "00:11:22:33:44:55" { type := "wifi", name := "unitA" } rfl⟩

/-! Claim C4. -/

/-- C4: with `active = None`, `_revert_spoof` performs no driver invocation,
appends no log entry and leaves the engine state unchanged; a second
consecutive revert behaves identically, so double revert is safe and
side-effect-free. -/
theorem c4_revert_noop_when_inactive (cfg : Config) (st : EngineState) (d : Driver)
    (m : String) (h : st.current_spoof = none) :
    revert_spoof cfg st d m = (st, []) ∧
    revert_spoof cfg (revert_spoof cfg st d m).1 d m = (st, []) := by
  have h1 := revert_spoof_of_none cfg st d m h
  refine ⟨h1, ?_⟩
  rw [h1]
  exact revert_spoof_of_none cfg st d m h

/-- Witness for C4 at a concrete inactive state. -/
theorem c4_witness :
    inactive_state.current_spoof = none ∧
    (revert_spoof default_config inactive_state ok_driver "00:11:22:33:44:55" =
        (inactive_state, []) ∧
      revert_spoof default_config
          (revert_spoof default_config inactive_state ok_driver "00:11:22:33:44:55").1
          ok_driver "00:11:22:33:44:55" = (inactive_state, [])) :=
  ⟨rfl, c4_revert_noop_when_inactive default_config inactive_state ok_driver
    "00:11:22:33:44:55" rfl⟩

/-! Claim C6. -/

/-- C6 counterexample: a non-rate-limited poll with an empty candidate set
and an active wifi spoof triggers the revert, but when the revert's
MAC-restore command fails the poll returns with the stale record still
active — contradicting the claim that `active = None` afterwards. -/
theorem c6_counterexample :
    (on_wifi_update default_config wifi_active_state down_fails_driver 100 true [] [] 0
        "00:11:22:33:44:55" "66:77:88:99:aa:bb" none).1.current_spoof
      = some { type := "wifi", name := "unitA" } := by
  decide

/-- C6 amended: a non-rate-limited poll whose filtered candidate set is
empty performs exactly one revert (its result is the whole outcome of the
poll, apart from the refreshed `_last_spoof` stamp); when nothing was
active this makes no driver call and no log entry, and when a record was
active `active = None` afterwards holds exactly when the revert did not
take its raising MAC-restore path. -/
theorem c6_amended_empty_candidates (cfg : Config) (st : EngineState) (d : Driver)
    (now : Int) (pwns : List String) (flips : List (String × String)) (pick : Nat)
    (m1 m2 : String) (g : Option GpsData)
    (ht : ¬ now - st.last_spoof < cfg.check_interval)
    (hc : build_candidates cfg pwns flips = []) :
    on_wifi_update cfg st d now true pwns flips pick m1 m2 g =
      revert_spoof cfg { st with last_spoof := now } d m1 ∧
    (st.current_spoof = none →
      on_wifi_update cfg st d now true pwns flips pick m1 m2 g =
        ({ st with last_spoof := now }, [])) ∧
    (∀ r, st.current_spoof = some r →
      ((on_wifi_update cfg st d now true pwns flips pick m1 m2 g).1.current_spoof = none ↔
        revert_raises cfg st d = false)) := by
  have he := on_wifi_update_empty cfg st d now pwns flips pick m1 m2 g ht hc
  refine ⟨he, ?_, ?_⟩
  · intro h0
    rw [he]
    exact revert_spoof_of_none cfg { st with last_spoof := now } d m1 h0
  · intro r hr
    rw [he, revert_spoof_fst]
    have hrr : revert_raises cfg { st with last_spoof := now } d =
        revert_raises cfg st d := rfl
    rw [hrr]
    cases hx : revert_raises cfg st d with
    | false => simp
    | true => simp [hr]

/-- Witness for C6 amended: empty candidate set with an active spoof and an
all-successful driver. -/
theorem c6_amended_witness :
    (¬ (100 : Int) - wifi_active_state.last_spoof < default_config.check_interval) ∧
    build_candidates default_config [] [] = [] ∧
    (on_wifi_update default_config wifi_active_state ok_driver 100 true [] [] 0
        "00:11:22:33:44:55" "66:77:88:99:aa:bb" none =
      revert_spoof default_config { wifi_active_state with last_spoof := 100 } ok_driver
        "00:11:22:33:44:55" ∧
    (wifi_active_state.current_spoof = none →
      on_wifi_update default_config wifi_active_state ok_driver 100 true [] [] 0
          "00:11:22:33:44:55" "66:77:88:99:aa:bb" none =
        ({ wifi_active_state with last_spoof := 100 }, [])) ∧
    (∀ r, wifi_active_state.current_spoof = some r →
      ((on_wifi_update default_config wifi_active_state ok_driver 100 true [] [] 0
          "00:11:22:33:44:55" "66:77:88:99:aa:bb" none).1.current_spoof = none ↔
        revert_raises default_config wifi_active_state ok_driver = false))) :=
  ⟨by decide, rfl,
    c6_amended_empty_candidates default_config wifi_active_state ok_driver 100 [] [] 0
      "00:11:22:33:44:55" "66:77:88:99:aa:bb" none (by decide) rfl⟩

/-! Claim C9. -/

/-- C9: a poll arriving before the configured interval has elapsed since
the last accepted poll is dropped whole: the state (including the
`_last_spoof` stamp) is unchanged, no driver call is made and no log entry
is appended. -/
theorem c9_rate_limited_poll_is_noop (cfg : Config) (st : EngineState) (d : Driver)
    (now : Int) (dl : Bool) (pwns : List String) (flips : List (String × String))
    (pick : Nat) (m1 m2 : String) (g : Option GpsData)
    (h : now - st.last_spoof < cfg.check_interval) :
    on_wifi_update cfg st d now dl pwns flips pick m1 m2 g = (st, []) :=
  on_wifi_update_rate_limited cfg st d now dl pwns flips pick m1 m2 g h

/-- Witness for C9 at a concrete early poll. -/
theorem c9_witness :
    ((30 : Int) - wifi_active_state.last_spoof < default_config.check_interval) ∧
    on_wifi_update default_config wifi_active_state ok_driver 30 true ["unitB"] [] 0
        "00:11:22:33:44:55" "66:77:88:99:aa:bb" none = (wifi_active_state, []) :=
  ⟨by decide,
    c9_rate_limited_poll_is_noop default_config wifi_active_state ok_driver 30 true
      ["unitB"] [] 0 "00:11:22:33:44:55" "66:77:88:99:aa:bb" none (by decide)⟩

theorem name_mutations_append (a b : List Event) :
    name_mutations (a ++ b) = name_mutations a + name_mutations b := by
  unfold name_mutations
  exact List.countP_append _ _ _

theorem name_mutations_nil : name_mutations [] = 0 := rfl

/-! Claim C2. -/

/-- C2 counterexample: a poll in which the chosen candidate's apply step
fails does not always leave `active = None` — when the internal revert also
raised on its MAC-restore command, the stale previous record is still
active after poll returns. -/
theorem c2_counterexample :
    (apply_record default_config down_fails_driver { type := "wifi", name := "unitB" }
        "66:77:88:99:aa:bb").1 = false ∧
    (on_wifi_update default_config wifi_active_state down_fails_driver 100 true ["unitB"]
        [] 0 "00:11:22:33:44:55" "66:77:88:99:aa:bb" none).1.current_spoof
      = some { type := "wifi", name := "unitA" } := by
  decide

/-- C2 amended: when the chosen candidate differs from the current record
and its apply step fails in a non-rate-limited poll, no transition-log
entry is appended and the failure is reported on the diagnostic channel
only; `active` afterwards is whatever the internal revert left behind —
`None` whenever the revert did not take its raising MAC-restore path (in
particular whenever nothing was active before). -/
theorem c2_amended_failed_apply_leaves_revert_state (cfg : Config) (st : EngineState)
    (d : Driver) (now : Int) (pwns : List String) (flips : List (String × String))
    (pick : Nat) (m1 m2 : String) (g : Option GpsData) (c : Spoof)
    (ht : ¬ now - st.last_spoof < cfg.check_interval)
    (hne : build_candidates cfg pwns flips ≠ [])
    (hpick : choose_candidate (build_candidates cfg pwns flips) pick = c)
    (hdiff : some c ≠ st.current_spoof)
    (hfail : (apply_record cfg d c m2).1 = false) :
    (on_wifi_update cfg st d now true pwns flips pick m1 m2 g).1.current_spoof =
      (revert_spoof cfg { st with last_spoof := now } d m1).1.current_spoof ∧
    (revert_raises cfg st d = false →
      (on_wifi_update cfg st d now true pwns flips pick m1 m2 g).1.current_spoof = none) ∧
    (∀ sp gg, Event.log_entry sp gg ∉
      (on_wifi_update cfg st d now true pwns flips pick m1 m2 g).2) ∧
    (Event.diag_error "spoof_wifi" ∈
        (on_wifi_update cfg st d now true pwns flips pick m1 m2 g).2 ∨
      Event.diag_error "spoof_bluetooth" ∈
        (on_wifi_update cfg st d now true pwns flips pick m1 m2 g).2) := by
  have he := on_wifi_update_changed_fail cfg st d now pwns flips pick m1 m2 g c
    ht hne hpick hdiff hfail
  have hrr : revert_raises cfg { st with last_spoof := now } d =
      revert_raises cfg st d := rfl
  refine ⟨by rw [he], ?_, ?_, ?_⟩
  · intro h0
    rw [he, revert_spoof_fst, hrr, h0]
    simp
  · intro sp gg
    rw [he]
    have n1 := revert_spoof_no_log cfg { st with last_spoof := now } d m1 sp gg
    have n2 := apply_record_no_log cfg d c m2 sp gg
    simp [n1, n2]
  · rw [he]
    rcases apply_record_fails_diag cfg d c m2 hfail with hmem | hmem
    · exact Or.inl (by simp [hmem])
    · exact Or.inr (by simp [hmem])

/-- Witness for C2 amended: nothing active, a single wifi candidate, a
driver whose hostapd.conf rewrite fails. -/
theorem c2_amended_witness :
    (¬ (100 : Int) - inactive_state.last_spoof < default_config.check_interval) ∧
    build_candidates default_config ["unitB"] [] ≠ [] ∧
    choose_candidate (build_candidates default_config ["unitB"] []) 0 =
      { type := "wifi", name := "unitB" } ∧
    some { type := "wifi", name := "unitB" } ≠ inactive_state.current_spoof ∧
    (apply_record default_config
        { ssid_write_ok := false, if_down_ok := true, mac_set_ok := true, if_up_ok := true
        , restart_ok := true, bt_set_ok := true, log_append_ok := true }
        { type := "wifi", name := "unitB" } "66:77:88:99:aa:bb").1 = false ∧
    ((on_wifi_update default_config inactive_state
        { ssid_write_ok := false, if_down_ok := true, mac_set_ok := true, if_up_ok := true
        , restart_ok := true, bt_set_ok := true, log_append_ok := true }
        100 true ["unitB"] [] 0 "00:11:22:33:44:55" "66:77:88:99:aa:bb"
        none).1.current_spoof =
      (revert_spoof default_config { inactive_state with last_spoof := 100 }
        { ssid_write_ok := false, if_down_ok := true, mac_set_ok := true, if_up_ok := true
        , restart_ok := true, bt_set_ok := true, log_append_ok := true }
        "00:11:22:33:44:55").1.current_spoof ∧
    (revert_raises default_config inactive_state
        { ssid_write_ok := false, if_down_ok := true, mac_set_ok := true, if_up_ok := true
        , restart_ok := true, bt_set_ok := true, log_append_ok := true } = false →
      (on_wifi_update default_config inactive_state
        { ssid_write_ok := false, if_down_ok := true, mac_set_ok := true, if_up_ok := true
        , restart_ok := true, bt_set_ok := true, log_append_ok := true }
        100 true ["unitB"] [] 0 "00:11:22:33:44:55" "66:77:88:99:aa:bb"
        none).1.current_spoof = none) ∧
    (∀ sp gg, Event.log_entry sp gg ∉
      (on_wifi_update default_config inactive_state
        { ssid_write_ok := false, if_down_ok := true, mac_set_ok := true, if_up_ok := true
        , restart_ok := true, bt_set_ok := true, log_append_ok := true }
        100 true ["unitB"] [] 0 "00:11:22:33:44:55" "66:77:88:99:aa:bb" none).2) ∧
    (Event.diag_error "spoof_wifi" ∈
        (on_wifi_update default_config inactive_state
          { ssid_write_ok := false, if_down_ok := true, mac_set_ok := true, if_up_ok := true
          , restart_ok := true, bt_set_ok := true, log_append_ok := true }
          100 true ["unitB"] [] 0 "00:11:22:33:44:55" "66:77:88:99:aa:bb" none).2 ∨
      Event.diag_error "spoof_bluetooth" ∈
        (on_wifi_update default_config inactive_state
          { ssid_write_ok := false, if_down_ok := true, mac_set_ok := true, if_up_ok := true
          , restart_ok := true, bt_set_ok := true, log_append_ok := true }
          100 true ["unitB"] [] 0 "00:11:22:33:44:55" "66:77:88:99:aa:bb" none).2)) :=
  ⟨by decide, by decide, by decide, by decide, by decide,
    c2_amended_failed_apply_leaves_revert_state default_config inactive_state
      { ssid_write_ok := false, if_down_ok := true, mac_set_ok := true, if_up_ok := true
      , restart_ok := true, bt_set_ok := true, log_append_ok := true }
      100 ["unitB"] [] 0 "00:11:22:33:44:55" "66:77:88:99:aa:bb" none
      { type := "wifi", name := "unitB" }
      (by decide) (by decide) (by decide) (by decide) (by decide)⟩

/-! Claim C5. -/

/-- C5: across two consecutive non-rate-limited polls that both choose the
same candidate `c` (in particular with a constant single-element candidate
set), starting from an inactive engine with a driver on which the apply
succeeds: the first poll performs exactly one identity mutation and records
`c` as active, and the second poll emits no driver event and no log entry
at all, changing nothing but the `_last_spoof` stamp. -/
theorem c5_unchanged_candidate_single_mutation (cfg : Config) (st : EngineState)
    (d : Driver) (pwns : List String) (flips : List (String × String)) (c : Spoof)
    (now1 now2 : Int) (p1 p2 : Nat) (m1 m2 m3 m4 : String) (g1 g2 : Option GpsData)
    (h0 : st.current_spoof = none)
    (hne : build_candidates cfg pwns flips ≠ [])
    (hpick : choose_candidate (build_candidates cfg pwns flips) p1 = c)
    (hpick2 : choose_candidate (build_candidates cfg pwns flips) p2 = c)
    (hok : (apply_record cfg d c m2).1 = true)
    (ht1 : ¬ now1 - st.last_spoof < cfg.check_interval)
    (ht2 : ¬ now2 - now1 < cfg.check_interval) :
    name_mutations (on_wifi_update cfg st d now1 true pwns flips p1 m1 m2 g1).2 = 1 ∧
    (on_wifi_update cfg st d now1 true pwns flips p1 m1 m2 g1).1.current_spoof = some c ∧
    (on_wifi_update cfg (on_wifi_update cfg st d now1 true pwns flips p1 m1 m2 g1).1 d
        now2 true pwns flips p2 m3 m4 g2).2 = [] ∧
    (on_wifi_update cfg (on_wifi_update cfg st d now1 true pwns flips p1 m1 m2 g1).1 d
        now2 true pwns flips p2 m3 m4 g2).1 =
      { (on_wifi_update cfg st d now1 true pwns flips p1 m1 m2 g1).1 with
          last_spoof := now2 } := by
  have hdiff : some c ≠ st.current_spoof := by rw [h0]; simp
  have he1 := on_wifi_update_changed_ok cfg st d now1 pwns flips p1 m1 m2 g1 c
    ht1 hne hpick hdiff hok
  have hrv := revert_spoof_of_none cfg { st with last_spoof := now1 } d m1 h0
  have hs1 : (on_wifi_update cfg st d now1 true pwns flips p1 m1 m2 g1).1 =
      { st with last_spoof := now1, current_spoof := some c } := by
    rw [he1, hrv]
  have he2 := on_wifi_update_unchanged cfg
    { st with last_spoof := now1, current_spoof := some c } d now2 pwns flips p2 m3 m4
    g2 c ht2 hne hpick2 rfl
  refine ⟨?_, ?_, ?_, ?_⟩
  · rw [he1, hrv]
    simp only [name_mutations_append]
    rw [apply_record_ok_name_mutations cfg d c m2 hok, log_spoof_name_mutations]
    rfl
  · rw [hs1]
  · rw [hs1, he2]
  · rw [hs1, he2]

/-- Witness for C5: constant single-element candidate list, inactive start,
all-successful driver. -/
theorem c5_witness :
    inactive_state.current_spoof = none ∧
    build_candidates default_config ["unitA"] [] ≠ [] ∧
    choose_candidate (build_candidates default_config ["unitA"] []) 0 =
      { type := "wifi", name := "unitA" } ∧
    (apply_record default_config ok_driver { type := "wifi", name := "unitA" }
        "66:77:88:99:aa:bb").1 = true ∧
    (name_mutations (on_wifi_update default_config inactive_state ok_driver 100 true
        ["unitA"] [] 0 "00:11:22:33:44:55" "66:77:88:99:aa:bb" none).2 = 1 ∧
    (on_wifi_update default_config inactive_state ok_driver 100 true ["unitA"] [] 0
        "00:11:22:33:44:55" "66:77:88:99:aa:bb" none).1.current_spoof =
      some { type := "wifi", name := "unitA" } ∧
    (on_wifi_update default_config
        (on_wifi_update default_config inactive_state ok_driver 100 true ["unitA"] [] 0
          "00:11:22:33:44:55" "66:77:88:99:aa:bb" none).1 ok_driver 200 true ["unitA"]
        [] 0 "00:11:22:33:44:55" "66:77:88:99:aa:bb" none).2 = [] ∧
    (on_wifi_update default_config
        (on_wifi_update default_config inactive_state ok_driver 100 true ["unitA"] [] 0
          "00:11:22:33:44:55" "66:77:88:99:aa:bb" none).1 ok_driver 200 true ["unitA"]
        [] 0 "00:11:22:33:44:55" "66:77:88:99:aa:bb" none).1 =
      { (on_wifi_update default_config inactive_state ok_driver 100 true ["unitA"] [] 0
          "00:11:22:33:44:55" "66:77:88:99:aa:bb" none).1 with last_spoof := 200 }) :=
  ⟨rfl, by decide, by decide, by decide,
    c5_unchanged_candidate_single_mutation default_config inactive_state ok_driver
      ["unitA"] [] { type := "wifi", name := "unitA" } 100 200 0 0
      "00:11:22:33:44:55" "66:77:88:99:aa:bb" "00:11:22:33:44:55" "66:77:88:99:aa:bb"
      none none rfl (by decide) (by decide) (by decide) (by decide) (by decide)
      (by decide)⟩

theorem spoof_wifi_set_mac (cfg : Config) (d : Driver) (ssid m x : String)
    (h : Event.set_mac x ∈ (spoof_wifi cfg d ssid m).2) :
    cfg.randomize_mac = true ∧ x = m := by
  unfold spoof_wifi at h
  cases hw : d.ssid_write_ok <;> cases hrm : cfg.randomize_mac <;>
    cases hd : d.if_down_ok <;> cases hms : d.mac_set_ok <;>
    cases hu : d.if_up_ok <;> cases hre : d.restart_ok <;> simp_all

/-! Claim C3. -/

/-- C3 counterexample: when reading the SSID fails during capture, the
field is not left unset — `_get_current_ssid` substitutes "pwnagotchi",
and a later revert of a wifi spoof restores that substitute value to the
device instead of skipping the field. -/
theorem c3_counterexample :
    (init_state { hostapd_conf := none, bt_name_out := none, ifconfig_out := none
      }).original_ssid = some "pwnagotchi" ∧
    Event.write_ssid "pwnagotchi" ∈
      (revert_spoof
        { spoof_targets := ["pwnagotchi", "flipper"], randomize_mac := false
        , log_file := "/var/log/spoofr.json", check_interval := 60 }
        { init_state { hostapd_conf := none, bt_name_out := none, ifconfig_out := none }
            with current_spoof := some { type := "wifi", name := "unitA" } }
        ok_driver "00:11:22:33:44:55").2 := by
  decide

/-- C3 amended: only the hardware-address field obeys the claim — a failed
MAC read leaves `_original_mac = None` and every later revert skips the
MAC-restore (the only `set_mac` a revert can then emit is the fresh random
address of the spoof-replay, never a restored one) and still clears
`active`; failed SSID and Bluetooth-name reads instead store the substitute
"pwnagotchi". -/
theorem c3_amended_only_mac_skipped (env : Env) (cfg : Config) (st : EngineState)
    (d : Driver) (m : String) (r : Spoof)
    (h1 : env.hostapd_conf = none) (h2 : env.bt_name_out = none)
    (h3 : env.ifconfig_out = none)
    (hmac : st.original_mac = none) (hr : st.current_spoof = some r) :
    (init_state env).original_ssid = some "pwnagotchi" ∧
    (init_state env).original_bt_name = some "pwnagotchi" ∧
    (init_state env).original_mac = none ∧
    (revert_spoof cfg st d m).1.current_spoof = none ∧
    (∀ x, Event.set_mac x ∈ (revert_spoof cfg st d m).2 →
      cfg.randomize_mac = true ∧ x = m) := by
  have hnr : revert_raises cfg st d = false := by
    unfold revert_raises
    rw [hr, hmac]
    simp [py_truthy]
  refine ⟨?_, ?_, ?_, ?_, ?_⟩
  · simp [init_state, get_current_ssid, h1]
  · simp [init_state, get_current_bt_name, h2]
  · simp [init_state, get_current_mac, h3]
  · rw [revert_spoof_fst, hnr]
    simp
  · intro x
    simp only [revert_spoof, hr]
    by_cases c1 : r.type = "wifi" ∧ py_truthy st.original_ssid = true
    · rw [if_pos c1]
      have c2 : ¬ (cfg.randomize_mac = true ∧ py_truthy st.original_mac = true) := by
        rw [hmac]
        simp [py_truthy]
      rw [if_neg c2]
      intro hx
      exact spoof_wifi_set_mac cfg d (st.original_ssid.getD "") m x hx
    · rw [if_neg c1]
      by_cases c3 : r.type = "bluetooth" ∧ py_truthy st.original_bt_name = true
      · rw [if_pos c3]
        intro hx
        exact absurd hx (by unfold spoof_bluetooth; cases hbt : d.bt_set_ok <;> simp)
      · rw [if_neg c3]
        intro hx
        cases hx

/-- Witness for C3 amended: every capture read fails; a bluetooth record is
active. -/
theorem c3_amended_witness :
    ({ hostapd_conf := none, bt_name_out := none, ifconfig_out := none } :
        Env).hostapd_conf = none ∧
    ({ hostapd_conf := none, bt_name_out := none, ifconfig_out := none } :
        Env).bt_name_out = none ∧
    ({ hostapd_conf := none, bt_name_out := none, ifconfig_out := none } :
        Env).ifconfig_out = none ∧
    ({ init_state { hostapd_conf := none, bt_name_out := none, ifconfig_out := none }
        with current_spoof := some { type := "bluetooth", name := "flip1" }
      }).original_mac = none ∧
    ({ init_state { hostapd_conf := none, bt_name_out := none, ifconfig_out := none }
        with current_spoof := some { type := "bluetooth", name := "flip1" }
      }).current_spoof = some { type := "bluetooth", name := "flip1" } ∧
    ((init_state { hostapd_conf := none, bt_name_out := none, ifconfig_out := none
      }).original_ssid = some "pwnagotchi" ∧
    (init_state { hostapd_conf := none, bt_name_out := none, ifconfig_out := none
      }).original_bt_name = some "pwnagotchi" ∧
    (init_state { hostapd_conf := none, bt_name_out := none, ifconfig_out := none
      }).original_mac = none ∧
    (revert_spoof default_config
        { init_state { hostapd_conf := none, bt_name_out := none, ifconfig_out := none }
            with current_spoof := some { type := "bluetooth", name := "flip1" } }
        ok_driver "00:11:22:33:44:55").1.current_spoof = none ∧
    (∀ x, Event.set_mac x ∈
        (revert_spoof default_config
          { init_state
              { hostapd_conf := none, bt_name_out := none, ifconfig_out := none } with
              current_spoof := some { type := "bluetooth", name := "flip1" } }
          ok_driver "00:11:22:33:44:55").2 →
      default_config.randomize_mac = true ∧ x = "00:11:22:33:44:55")) :=
  ⟨rfl, rfl, rfl, by decide, rfl,
    c3_amended_only_mac_skipped
      { hostapd_conf := none, bt_name_out := none, ifconfig_out := none }
      default_config
      { init_state { hostapd_conf := none, bt_name_out := none, ifconfig_out := none }
          with current_spoof := some { type := "bluetooth", name := "flip1" } }
      ok_driver "00:11:22:33:44:55" { type := "bluetooth", name := "flip1" }
      rfl rfl rfl (by decide) rfl⟩

/-! Claim C7. -/

/-- C7 counterexample: with MAC randomization enabled, a failure of the
address-cycling sub-step makes `_spoof_wifi` report failure for the whole
apply even though the name change itself had already been applied (the
`write_ssid` effect is in the trace) — contradicting the claim that apply
still reports the name change's own success. -/
theorem c7_counterexample :
    (spoof_wifi default_config down_fails_driver "unitB" "66:77:88:99:aa:bb").1 =
      false ∧
    Event.write_ssid "unitB" ∈
      (spoof_wifi default_config down_fails_driver "unitB" "66:77:88:99:aa:bb").2 := by
  decide

/-- C7 amended: with MAC randomization enabled and a successful name write,
a failure in the address-cycling sub-step does not roll back the name
change (the trace keeps the `write_ssid` effect and contains no other name
write), but it is not reported independently: the whole apply returns
failure. -/
theorem c7_amended_mac_failure_fails_apply (cfg : Config) (d : Driver) (ssid m : String)
    (hrm : cfg.randomize_mac = true) (hw : d.ssid_write_ok = true)
    (hmac : ¬ (d.if_down_ok = true ∧ d.mac_set_ok = true ∧ d.if_up_ok = true)) :
    (spoof_wifi cfg d ssid m).1 = false ∧
    Event.write_ssid ssid ∈ (spoof_wifi cfg d ssid m).2 ∧
    (∀ s, Event.write_ssid s ∈ (spoof_wifi cfg d ssid m).2 → s = ssid) := by
  unfold spoof_wifi
  cases hd : d.if_down_ok <;> cases hms : d.mac_set_ok <;> cases hu : d.if_up_ok <;>
    simp_all

/-- Witness for C7 amended at a concrete failing MAC cycle. -/
theorem c7_amended_witness :
    default_config.randomize_mac = true ∧
    down_fails_driver.ssid_write_ok = true ∧
    (¬ (down_fails_driver.if_down_ok = true ∧ down_fails_driver.mac_set_ok = true ∧
        down_fails_driver.if_up_ok = true)) ∧
    ((spoof_wifi default_config down_fails_driver "unitB" "66:77:88:99:aa:bb").1 =
        false ∧
      Event.write_ssid "unitB" ∈
        (spoof_wifi default_config down_fails_driver "unitB" "66:77:88:99:aa:bb").2 ∧
      (∀ s, Event.write_ssid s ∈
          (spoof_wifi default_config down_fails_driver "unitB" "66:77:88:99:aa:bb").2 →
        s = "unitB")) :=
  ⟨rfl, rfl, by decide,
    c7_amended_mac_failure_fails_apply default_config down_fails_driver "unitB"
      "66:77:88:99:aa:bb" rfl rfl (by decide)⟩

/-! Claim C8. -/

/-- C8 counterexample: a parsed spoof command with the "name" field missing
is silently ignored — the endpoint answers `{"status": "success"}`, not the
structured error response with status "error" the claim demands. -/
theorem c8_counterexample :
    on_webhook_post default_config inactive_state ok_driver
        (.parsed (some "spoof") (some "wifi") none) "00:11:22:33:44:55"
        "66:77:88:99:aa:bb" none =
      (inactive_state, [], Resp.success) := by
  decide

/-- C8 amended: an unparseable body is caught and answered with the
structured error response, with no driver call and `active` unchanged; a
parsed spoof command missing its type or name field likewise makes no
driver call, leaves `active` unchanged and never crashes, but is answered
with `{"status": "success"}` rather than an error. -/
theorem c8_amended_malformed_payloads (cfg : Config) (st : EngineState) (d : Driver)
    (m1 m2 : String) (g : Option GpsData) (msg : String) (t n : Option String) :
    on_webhook_post cfg st d (.malformed msg) m1 m2 g =
      (st, [.diag_error "webhook"], .error msg) ∧
    on_webhook_post cfg st d (.parsed (some "spoof") none n) m1 m2 g =
      (st, [], .success) ∧
    on_webhook_post cfg st d (.parsed (some "spoof") t none) m1 m2 g =
      (st, [], .success) := by
  refine ⟨rfl, rfl, ?_⟩
  cases t <;> rfl

/-! Claim C10. -/

/-- C10: a fully-formed spoof command whose type is any string other than
"wifi" — including strings naming no supported kind — is dispatched to the
Bluetooth driver with the requested name and is not rejected (the response
is "success"); on driver success the record `{type := t, name := n}` is
stored as active, and on driver failure the failure is logged to the
diagnostic channel. -/
theorem c10_non_wifi_type_uses_bluetooth_driver (cfg : Config) (st : EngineState)
    (d : Driver) (m1 m2 : String) (g : Option GpsData) (t n : String)
    (ht : t ≠ "wifi") :
    (on_webhook_post cfg st d (.parsed (some "spoof") (some t) (some n)) m1 m2 g).2.2 =
      Resp.success ∧
    (d.bt_set_ok = true →
      (on_webhook_post cfg st d (.parsed (some "spoof") (some t) (some n)) m1 m2
          g).1.current_spoof = some { type := t, name := n } ∧
      Event.set_bt_name n ∈
        (on_webhook_post cfg st d (.parsed (some "spoof") (some t) (some n)) m1 m2
          g).2.1) ∧
    (d.bt_set_ok = false →
      Event.diag_error "spoof_bluetooth" ∈
        (on_webhook_post cfg st d (.parsed (some "spoof") (some t) (some n)) m1 m2
          g).2.1) := by
  have happ : apply_record cfg d { type := t, name := n } m2 = spoof_bluetooth d n := by
    unfold apply_record
    rw [if_neg ht]
  have hne1 : ¬ ((some "spoof" : Option String) = some "revert") := by decide
  simp only [on_webhook_post, if_neg hne1, if_pos rfl, happ]
  unfold spoof_bluetooth
  cases hbt : d.bt_set_ok <;> simp_all

/-- Witness for C10 with an unrecognized type string and an active wifi
spoof being replaced. -/
theorem c10_witness :
    ("flipper_ble" : String) ≠ "wifi" ∧
    ((on_webhook_post default_config wifi_active_state ok_driver
          (.parsed (some "spoof") (some "flipper_ble") (some "flip1"))
          "00:11:22:33:44:55" "66:77:88:99:aa:bb" none).2.2 = Resp.success ∧
    (ok_driver.bt_set_ok = true →
      (on_webhook_post default_config wifi_active_state ok_driver
          (.parsed (some "spoof") (some "flipper_ble") (some "flip1"))
          "00:11:22:33:44:55" "66:77:88:99:aa:bb" none).1.current_spoof =
        some { type := "flipper_ble", name := "flip1" } ∧
      Event.set_bt_name "flip1" ∈
        (on_webhook_post default_config wifi_active_state ok_driver
          (.parsed (some "spoof") (some "flipper_ble") (some "flip1"))
          "00:11:22:33:44:55" "66:77:88:99:aa:bb" none).2.1) ∧
    (ok_driver.bt_set_ok = false →
      Event.diag_error "spoof_bluetooth" ∈
        (on_webhook_post default_config wifi_active_state ok_driver
          (.parsed (some "spoof") (some "flipper_ble") (some "flip1"))
          "00:11:22:33:44:55" "66:77:88:99:aa:bb" none).2.1)) :=
  ⟨by decide,
    c10_non_wifi_type_uses_bluetooth_driver default_config wifi_active_state ok_driver
      "00:11:22:33:44:55" "66:77:88:99:aa:bb" none "flipper_ble" "flip1" (by decide)⟩

end Spoofr
